import Mathlib

/-!
Verification of the gensio TCP and PTY drivers (src/lib/gensio_tcp.c,
src/lib/gensio_pty.c) against their natural-language specification.

The C code is shallowly embedded: each driver function becomes an executable
Lean function over an explicit state record, and every interaction with a
collaborator that lives outside the two source files (the OS-services layer,
the fd lower layer, the option-parsing helpers) is represented by an oracle
record supplying that collaborator's results.  Machine-integer wraparound is
made explicit where it matters (the 32-bit unsigned countdown in the
accepter shutdown path).
-/

/-! ## Error codes

`gensio_tcp.c` reports errors as raw errno values; `gensio_pty.c` reports
`GE_`-prefixed gensio error codes.  The numeric values below follow the Linux
errno values used by the TCP file.  The `GE_` codes come from a header that is
not part of the excerpt; only their distinctness is ever used. -/

def EINVAL : Nat := 22
def EBUSY : Nat := 16
def ENOMEM : Nat := 12
def E2BIG : Nat := 7
def EAGAIN : Nat := 11
def ENOTSUP : Nat := 95
def EINPROGRESS : Nat := 115

/-- Modelled from the spec: abstract gensio error kinds of spec section 7
(`gensio_err.h` is not in the excerpt); distinct numeric codes. -/
def GE_NOMEM : Nat := 1
def GE_NOTSUP : Nat := 2
def GE_INVAL : Nat := 3
def GE_NOTFOUND : Nat := 4
def GE_EXISTS : Nat := 5
def GE_INCONSISTENT : Nat := 7
def GE_NODATA : Nat := 8
def GE_OSERR : Nat := 9
def GE_INPROGRESS : Nat := 11
def GE_NOTREADY : Nat := 12
def GE_TOOBIG : Nat := 13
def GE_REMCLOSE : Nat := 18
def GE_IOERR : Nat := 19

/-! ## TCP client driver (`struct tcp_data`, gensio_tcp.c)

Network addresses (`struct addrinfo` entries) are opaque to the driver except
for identity, so they are modelled as tagged values.  The address list is a
Lean list; the iteration cursor `curr_ai` is modelled as the suffix of the
list starting at the current entry (the C code walks `ai_next` pointers). -/

structure Addr where
  id : Nat
deriving DecidableEq

/-- The fields of `struct tcp_data` that the connect path reads or writes.
`raddr` holds the address recorded by a successful connect (the C code
memcpys `ai->ai_addr` into the `remote` buffer). -/
structure TcpData where
  ai : List Addr
  curr_ai : List Addr
  raddr : Option Addr
  last_err : Nat
deriving DecidableEq

/-- Result of the OS `connect` call for one address: immediate success,
`EINPROGRESS`, or a hard errno. -/
inductive ConnectRes where
  | ok
  | inProgress
  | hardErr (e : Nat)
deriving DecidableEq

def ConnectRes.isHard : ConnectRes → Bool
  | .hardErr _ => true
  | _ => false

/-- Oracle for the OS calls made by `tcp_try_open`: the result of `socket()`
(`some fd` or failure with `socketErrno`), the result of `tcp_socket_setup`
(0 on success), and the result of `connect()` per address. -/
structure TcpWorld where
  socketRes : Option Nat
  socketErrno : Nat
  setupErr : Nat
  connect : Addr → ConnectRes

/-- Outcome of the `retry:` loop inside `tcp_try_open`: `found a rest` means
`connect` returned 0 at entry `a` (with `rest` after it); `inProg a rest`
means `connect` returned `EINPROGRESS` there (the code then stores
`curr_ai := a :: rest`); `exhausted e` means every remaining entry failed
hard and `e` is the errno of the last attempt. -/
inductive LoopRes where
  | found (a : Addr) (rest : List Addr)
  | inProg (a : Addr) (rest : List Addr)
  | exhausted (e : Nat)
deriving DecidableEq

/-- The `retry:` loop of `tcp_try_open` (gensio_tcp.c lines 127-147): connect
to the current entry; on a hard error step to `ai->ai_next` and try again,
keeping only the most recent errno. -/
def connect_loop (w : TcpWorld) : Addr → List Addr → LoopRes
  | a, rest =>
    match w.connect a, rest with
    | .ok, _ => .found a rest
    | .inProgress, _ => .inProg a rest
    | .hardErr e, [] => .exhausted e
    | .hardErr _, b :: rest2 => connect_loop w b rest2

/-- Observable outcome of one `tcp_try_open`/`tcp_retry_open` call: the
returned error, the descriptor stored through `*fd` (if any), the updated
`tcp_data`, how many times `socket()` was called, which descriptors were
`close()`d, and whether the C code would have dereferenced a null
`curr_ai`. -/
structure TryOpenOut where
  err : Nat
  fdOut : Option Nat
  tdata : TcpData
  socketCalls : Nat
  closes : List Nat
  nullDeref : Bool
deriving DecidableEq

/-- `tcp_try_open` (gensio_tcp.c lines 111-158).  One `socket()` call, one
`tcp_socket_setup`, then the connect loop.  On immediate success `raddr` is
recorded from the succeeding entry and the same descriptor is returned; on
`EINPROGRESS` the cursor is stored and the descriptor returned; when the
remaining entries are exhausted the descriptor is closed (once, at `out:`)
and the last errno returned.  With a null cursor the C code would
dereference null at `ai->ai_family` (flagged by `nullDeref`). -/
def tcp_try_open (w : TcpWorld) (d : TcpData) : TryOpenOut :=
  match d.curr_ai with
  | [] =>
    { err := EBUSY, fdOut := none, tdata := d, socketCalls := 0, closes := [],
      nullDeref := true }
  | a :: rest =>
    match w.socketRes with
    | none =>
      { err := w.socketErrno, fdOut := none, tdata := d, socketCalls := 1,
        closes := [], nullDeref := false }
    | some fd =>
      if w.setupErr ≠ 0 then
        { err := w.setupErr, fdOut := none, tdata := d, socketCalls := 1,
          closes := [fd], nullDeref := false }
      else
        match connect_loop w a rest with
        | .found b _ =>
          { err := 0, fdOut := some fd, tdata := { d with raddr := some b },
            socketCalls := 1, closes := [], nullDeref := false }
        | .inProg b rest2 =>
          { err := EINPROGRESS, fdOut := some fd,
            tdata := { d with curr_ai := b :: rest2 },
            socketCalls := 1, closes := [], nullDeref := false }
        | .exhausted e =>
          { err := e, fdOut := none, tdata := d, socketCalls := 1,
            closes := [fd], nullDeref := false }

/-- `tcp_sub_open` (gensio_tcp.c lines 172-179): reset the cursor to the head
of the address list and run `tcp_try_open`. -/
def tcp_sub_open (w : TcpWorld) (d : TcpData) : TryOpenOut :=
  tcp_try_open w { d with curr_ai := d.ai }

/-- `tcp_retry_open` (gensio_tcp.c lines 160-170): advance the cursor (when
non-null); if it is now exhausted return the stored `last_err`, otherwise run
`tcp_try_open` from the new position. -/
def tcp_retry_open (w : TcpWorld) (d : TcpData) : TryOpenOut :=
  let d1 := if d.curr_ai ≠ [] then { d with curr_ai := d.curr_ai.tail } else d
  if d1.curr_ai = [] then
    { err := d1.last_err, fdOut := none, tdata := d1, socketCalls := 0,
      closes := [], nullDeref := false }
  else tcp_try_open w d1

/-- Oracle for the `getsockopt(SO_ERROR)` call in `tcp_check_open`:
`sockoptErr = some e` means the `getsockopt` call itself failed with errno
`e`; otherwise `pendingErr` is the pending socket error it read. -/
structure CheckWorld where
  sockoptErr : Option Nat
  pendingErr : Nat
deriving DecidableEq

structure CheckOut where
  err : Nat
  tdata : TcpData
  nullDeref : Bool
deriving DecidableEq

/-- `tcp_check_open` (gensio_tcp.c lines 59-78): read the pending socket
error; store it in `last_err`; if it is zero record `raddr` from the current
cursor entry and succeed, otherwise return it. -/
def tcp_check_open (w : CheckWorld) (d : TcpData) : CheckOut :=
  match w.sockoptErr with
  | some e => { err := e, tdata := { d with last_err := e }, nullDeref := false }
  | none =>
    let d1 := { d with last_err := w.pendingErr }
    if w.pendingErr = 0 then
      match d1.curr_ai with
      | a :: _ =>
        { err := 0, tdata := { d1 with raddr := some a }, nullDeref := false }
      | [] => { err := 0, tdata := d1, nullDeref := true }
    else
      { err := w.pendingErr, tdata := d1, nullDeref := false }

/-- `tcp_get_raddr` (gensio_tcp.c lines 191-201) acting on the `raddrlen`
valid bytes of the stored remote address: clamp the requested length to the
stored length, copy that many bytes, write the clamped length back, return
0. -/
def tcp_get_raddr (remote : List Nat) (addrlen : Nat) : List Nat × Nat × Nat :=
  let len := if addrlen > remote.length then remote.length else addrlen
  (remote.take len, len, 0)

/-! ## TCP accepter driver (`struct tcpna_data`, gensio_tcp.c) -/

/-- Wraparound modulus of the C `unsigned int` counter
`nr_accept_close_waiting`. -/
def U32 : Nat := 2 ^ 32

/-- The fields of `struct tcpna_data` that the shutdown path reads or writes.
`acceptfds` is `some fds` while the listening-descriptor array is allocated
and `none` once freed and nulled; `has_shutdown_done` records whether a
non-null `shutdown_done` callback is stored. -/
structure TcpnaData where
  setup : Bool
  enabled : Bool
  in_shutdown : Bool
  refcount : Nat
  acceptfds : Option (List Nat)
  nr_acceptfds : Nat
  nr_accept_close_waiting : Nat
  has_shutdown_done : Bool
deriving DecidableEq

/-- Observable effects of one `tcpna_fd_cleared` invocation. -/
structure ClearedOut where
  st : TcpnaData
  closedFd : Nat
  freedArray : Bool
  firedDone : Bool
  derefed : Bool
deriving DecidableEq

/-- `tcpna_fd_cleared` (gensio_tcp.c lines 570-595): close the descriptor,
decrement `nr_accept_close_waiting` under the lock (an `unsigned int`, so the
decrement wraps at zero); when it reaches zero clear `in_shutdown`, free and
null the descriptor array (the free is guarded by a null check), then outside
the lock invoke the shutdown-done callback if present and drop one
refcount. -/
def tcpna_fd_cleared (fd : Nat) (st : TcpnaData) : ClearedOut :=
  let numLeft := (st.nr_accept_close_waiting + (U32 - 1)) % U32
  if numLeft = 0 then
    { st := { st with
                nr_accept_close_waiting := 0
                in_shutdown := false
                acceptfds := none
                refcount := st.refcount - 1 },
      closedFd := fd,
      freedArray := st.acceptfds.isSome,
      firedDone := st.has_shutdown_done,
      derefed := true }
  else
    { st := { st with nr_accept_close_waiting := numLeft },
      closedFd := fd, freedArray := false, firedDone := false,
      derefed := false }

/-- `_tcpna_shutdown` (gensio_tcp.c lines 634-648): set `in_shutdown`, store
the completion callback, set the countdown to the number of listening
descriptors, request a clear of every descriptor handler (each completes
later with `tcpna_fd_cleared`), clear `setup` and `enabled`. -/
def tcpna_do_shutdown (hasDone : Bool) (st : TcpnaData) : TcpnaData :=
  { st with
      in_shutdown := true
      has_shutdown_done := hasDone
      nr_accept_close_waiting := st.nr_acceptfds
      setup := false
      enabled := false }

/-- `tcpna_shutdown` (gensio_tcp.c lines 650-665): under the lock, run the
shutdown when `setup`, else fail with `EBUSY`. -/
def tcpna_shutdown (hasDone : Bool) (st : TcpnaData) : Nat × TcpnaData :=
  if st.setup then (0, tcpna_do_shutdown hasDone st) else (EBUSY, st)

/-- Sequential run of the cleared callbacks for the descriptors in `fds`
(the fd lower layer delivers them one at a time); returns the final state,
the number of times the descriptor array was freed, and the number of times
the shutdown-done callback fired. -/
def run_cleared : List Nat → TcpnaData → TcpnaData × Nat × Nat
  | [], st => (st, 0, 0)
  | fd :: rest, st =>
    let o := tcpna_fd_cleared fd st
    let r := run_cleared rest o.st
    (r.1, (if o.freedArray then 1 else 0) + r.2.1,
          (if o.firedDone then 1 else 0) + r.2.2)

/-! ## TCP accepter `str → endpoint` constructor (`tcpna_str_to_gensio`)

The option helpers (`gensio_check_keyds` and friends) live in the argv
utilities outside the excerpt; the spec treats them as opaque.  They are
modelled over already-parsed option values: each recognizer matches exactly
its own key, and a NULL string argument matches no key. -/

inductive TcpArg where
  | readbuf (n : Nat)
  | laddr (v : Nat)
  | nodelay (b : Bool)
  | unknown
deriving DecidableEq

/-- Modelled from the spec: `gensio_check_keyds(str, "readbuf", …)` with a
possibly-NULL string (`none`). -/
def check_keyds_readbuf : Option TcpArg → Option Nat
  | some (.readbuf n) => some n
  | _ => none

/-- Modelled from the spec: `gensio_check_keyvalue(str, "laddr", …)`. -/
def check_keyvalue_laddr : Option TcpArg → Option Nat
  | some (.laddr v) => some v
  | _ => none

/-- Modelled from the spec: `gensio_check_keybool(str, "nodelay", …)`. -/
def check_keybool_nodelay : Option TcpArg → Option Bool
  | some (.nodelay b) => some b
  | _ => none

/-- Modelled from the spec: the default read-buffer size
`GENSIO_DEFAULT_BUF_SIZE` (its header is outside the excerpt; the value is
never material). -/
def GENSIO_DEFAULT_BUF_SIZE : Nat := 1024

/-- The option loop of `tcpna_str_to_gensio` (gensio_tcp.c lines 734-744),
iterating over the parsed vector `iargs` with index `i`.  Note the source
checks `readbuf` and `laddr` against `iargs[i]` but `nodelay` against
`args[i]` — the local output vector `argsVec`, still all NULL at this point
(and read out of bounds past its four slots, modelled as NULL).  `laddr`
keeps the whole matching option for later forwarding.  An entry matching no
check makes the loop fail (`goto out_err` with `EINVAL`). -/
def tcpna_args_loop (argsVec : List (Option TcpArg)) :
    List TcpArg → Nat → Nat → Option TcpArg → Bool →
    Option (Nat × Option TcpArg × Bool)
  | [], _, mrs, laddr, ndl => some (mrs, laddr, ndl)
  | ia :: rest, i, mrs, laddr, ndl =>
    match check_keyds_readbuf (some ia) with
    | some n => tcpna_args_loop argsVec rest (i + 1) n laddr ndl
    | none =>
      match check_keyvalue_laddr (some ia) with
      | some _ => tcpna_args_loop argsVec rest (i + 1) mrs (some ia) ndl
      | none =>
        match check_keybool_nodelay (argsVec.getD i none) with
        | some b => tcpna_args_loop argsVec rest (i + 1) mrs laddr b
        | none => none

/-- The accepter fields consulted by `tcpna_str_to_gensio`. -/
structure TcpnaAccData where
  max_read_size : Nat
  nodelay : Bool
deriving DecidableEq

/-- Oracle for `gensio_scan_network_port` and for the final
`tcp_gensio_alloc` call. -/
structure ScanRes where
  scanErr : Nat
  protocolIsTcp : Bool
  isPortSet : Bool
  iargs : List TcpArg
  allocErr : Nat
deriving DecidableEq

structure StrToGensioOut where
  err : Nat
  fwdArgs : Option (List TcpArg)
deriving DecidableEq

/-- `tcpna_str_to_gensio` (gensio_tcp.c lines 707-766): scan the address
string, insist on TCP with a port, run the option loop, then rebuild an
argument vector for `tcp_gensio_alloc`.  When the loop's read-buffer value
differs from `GENSIO_DEFAULT_BUF_SIZE`, the forwarded option is printed with
`snprintf("readbuf=%ld", nadata->max_read_size)` — the accepter's stored
field, not the loop's value. -/
def tcpna_str_to_gensio (nd : TcpnaAccData) (scan : ScanRes) : StrToGensioOut :=
  if scan.scanErr ≠ 0 then { err := scan.scanErr, fwdArgs := none }
  else if ¬(scan.protocolIsTcp ∧ scan.isPortSet) then
    { err := EINVAL, fwdArgs := none }
  else
    match tcpna_args_loop [none, none, none, none] scan.iargs 0
        nd.max_read_size none false with
    | none => { err := EINVAL, fwdArgs := none }
    | some (mrs, laddr, ndl) =>
      let a1 : List TcpArg :=
        if mrs ≠ GENSIO_DEFAULT_BUF_SIZE then [.readbuf nd.max_read_size]
        else []
      let a2 := a1 ++ (match laddr with | some l => [l] | none => [])
      let a3 := a2 ++ (if ndl then [.nodelay true] else [])
      { err := scan.allocErr, fwdArgs := some a3 }

/-! ## PTY driver (`struct pty_data`, gensio_pty.c)

The build is taken with both `HAVE_PTY` and `HAVE_PTSNAME_R` defined, the
configuration the spec describes. -/

/-- The fields of `struct pty_data` used by the spawn, reap and control
paths.  `iod` is the master-PTY I/O descriptor handle (`none` models the
NULL pointer, as after `pty_check_close` nulls it); `pid = -1` is the "no
child" sentinel set at allocation. -/
structure PtyState where
  iod : Option Nat
  pid : Int
  argv : Option (List String)
  env : Option (List String)
  raw : Bool
  link_created : Bool
  exit_code : Int
  exit_code_set : Bool
deriving DecidableEq

/-- Oracle for the OS-services calls made by `gensio_setup_child_on_pty`:
each `*_err` field is that call's return value (0 = success), `iod_handle`
the descriptor handle `add_iod` produces, `setup_pty_link_created` whether a
successful `gensio_setup_pty` created the symlink, and `pid_val` the child
PID read back through the PID control. -/
structure SpawnWorld where
  add_iod_err : Nat
  iod_handle : Nat
  set_nonblock_err : Nat
  setup_pty_err : Nat
  setup_pty_link_created : Bool
  makeraw_err : Nat
  argv_ctl_err : Nat
  env_ctl_err : Nat
  start_ctl_err : Nat
  pid_ctl_err : Nat
  pid_val : Int
deriving DecidableEq

/-- Observable outcome of `gensio_setup_child_on_pty`: returned error, the
state afterwards, whether `gensio_cleanup_pty` ran, and whether the new
descriptor was closed. -/
structure SpawnOut where
  err : Nat
  st : PtyState
  cleanup_ran : Bool
  closed_iod : Bool
deriving DecidableEq

/-- `gensio_setup_child_on_pty` (gensio_pty.c lines 171-220), translated
statement by statement.  `add_iod` and `set_non_blocking` failures jump to
`out_err`.  The result of `gensio_setup_pty` is assigned to `err` but — as
in the source — not tested at that point: when `raw` is set `err` is
overwritten by `makeraw`, and when `argv` is present it is overwritten by
the ARGV control; only if it survives to the combined `if (err)` test does
it reach `out_err`.  `out_err` runs `gensio_cleanup_pty` and closes the
descriptor when one was allocated. -/
def gensio_setup_child_on_pty (w : SpawnWorld) (t : PtyState) : SpawnOut :=
  if w.add_iod_err ≠ 0 then
    { err := w.add_iod_err, st := t, cleanup_ran := true, closed_iod := false }
  else if w.set_nonblock_err ≠ 0 then
    { err := w.set_nonblock_err, st := t, cleanup_ran := true,
      closed_iod := true }
  else
    let err0 := w.setup_pty_err
    let t0 := if err0 = 0 ∧ w.setup_pty_link_created then
                { t with link_created := true } else t
    if t.raw ∧ w.makeraw_err ≠ 0 then
      { err := w.makeraw_err, st := t0, cleanup_ran := true,
        closed_iod := true }
    else
      let e1 := if t.raw then 0 else err0
      let e2 := if t.argv.isSome then w.argv_ctl_err else e1
      let e3 := if e2 = 0 ∧ t.env.isSome then w.env_ctl_err else e2
      let e4 := if e3 = 0 then w.start_ctl_err else e3
      if e4 ≠ 0 then
        { err := e4, st := t0, cleanup_ran := true, closed_iod := true }
      else if t.argv.isSome then
        if w.pid_ctl_err ≠ 0 then
          { err := w.pid_ctl_err, st := t0, cleanup_ran := true,
            closed_iod := true }
        else
          { err := 0,
            st := { t0 with pid := w.pid_val, iod := some w.iod_handle },
            cleanup_ran := false, closed_iod := false }
      else
        { err := 0, st := { t0 with iod := some w.iod_handle },
          cleanup_ran := false, closed_iod := false }

/-- Result of one `o->wait_subprog` call: child exited with a code, still
running (`GE_INPROGRESS`), or a hard error. -/
inductive WaitRes where
  | done (code : Int)
  | inprog
  | failed (e : Nat)
deriving DecidableEq

structure ReapOut where
  err : Nat
  called_wait : Bool
  st : PtyState
deriving DecidableEq

/-- `pty_check_exit_code` (gensio_pty.c lines 235-254): under the lock, if
the exit code is already captured succeed at once; if there is no child
return `GE_NOTREADY`; otherwise call `wait_subprog` and on success store the
code and set the flag. -/
def pty_check_exit_code (w : WaitRes) (t : PtyState) : ReapOut :=
  if t.exit_code_set then { err := 0, called_wait := false, st := t }
  else if t.pid = -1 then { err := GE_NOTREADY, called_wait := false, st := t }
  else
    match w with
    | .done c =>
      { err := 0, called_wait := true,
        st := { t with exit_code := c, exit_code_set := true } }
    | .inprog => { err := GE_INPROGRESS, called_wait := true, st := t }
    | .failed e => { err := e, called_wait := true, st := t }

structure ExitCtlOut where
  err : Nat
  data : Option Int
deriving DecidableEq

/-- The `GENSIO_CONTROL_EXIT_CODE` branch of `pty_control` (gensio_pty.c
lines 372-382): get-only; `GE_NOTREADY` unless `exit_code_set`; otherwise
prints the stored code. -/
def pty_control_exit_code (get : Bool) (t : PtyState) : ExitCtlOut :=
  if ¬get then { err := GE_NOTSUP, data := none }
  else if ¬t.exit_code_set then { err := GE_NOTREADY, data := none }
  else { err := 0, data := some t.exit_code }

/-- A step of the reap / EXIT_CODE operation sequences claim C4 quantifies
over; each reap carries the `wait_subprog` result the OS would deliver. -/
inductive PtyOp where
  | reap (w : WaitRes)
  | exit_code_get
deriving DecidableEq

/-- State evolution of `pty_data` under a sequence of reap and EXIT_CODE
operations (EXIT_CODE is a pure read). -/
def pty_run_state : List PtyOp → PtyState → PtyState
  | [], t => t
  | .reap w :: rest, t => pty_run_state rest (pty_check_exit_code w t).st
  | .exit_code_get :: rest, t => pty_run_state rest t

/-- Outcome of a PTY control branch: a returned error plus an optional value
read, or a dereference of the NULL `iod` pointer (undefined behavior in the
C source). -/
inductive CtlOutcome where
  | ret (err : Nat) (val : Option Nat)
  | derefNull
deriving DecidableEq

/-- The `GENSIO_CONTROL_RADDR_BIN` branch of `pty_control` (gensio_pty.c
lines 438-444): get-only; when the caller's length is at least
`sizeof(int)` it stores `iod_get_fd(tdata->iod)` — reading through
`tdata->iod` with no null guard; the reported length is always
`sizeof(int)`. -/
def pty_control_raddr_bin (get : Bool) (datalen : Nat) (t : PtyState) :
    CtlOutcome :=
  if ¬get then .ret GE_NOTSUP none
  else if 4 ≤ datalen then
    match t.iod with
    | none => .derefNull
    | some fd => .ret 0 (some fd)
  else .ret 0 none

/-- Result of the `ptsname_r` call made by the LADDR branch. -/
inductive PtsRes where
  | ok
  | fail (e : Nat)
deriving DecidableEq

/-- The `GENSIO_CONTROL_LADDR`/`LPORT` branch of `pty_control` (gensio_pty.c
lines 407-425): get-only; index 0 only; `GE_NOTREADY` when the descriptor
pointer is NULL; otherwise report the slave path from `ptsname_r`. -/
def pty_control_laddr (get : Bool) (idx : Nat) (pts : PtsRes) (t : PtyState) :
    CtlOutcome :=
  if ¬get then .ret GE_NOTSUP none
  else if idx > 0 then .ret GE_NOTFOUND none
  else
    match t.iod with
    | none => .ret GE_NOTREADY none
    | some fd =>
      match pts with
      | .ok => .ret 0 (some fd)
      | .fail e => .ret e none

/-! ## PTY allocator (`pty_gensio_alloc`, gensio_pty.c lines 469-596)

As in the accepter constructor, the key/value helpers are opaque to the
excerpt; the option vector is modelled over already-parsed option values,
one constructor per key the allocator recognizes. -/

inductive PtyArg where
  | readbuf (n : Nat)
  | link (s : String)
  | forcelink (b : Bool)
  | umode (m : Nat)
  | gmode (m : Nat)
  | omode (m : Nat)
  | perm (m : Nat)
  | owner (s : String)
  | group (s : String)
  | raw (b : Bool)
  | unknown (s : String)
deriving DecidableEq

/-- The local option state accumulated by the allocator's argument loop,
with the source's initial values (`umode = gmode = omode = 6`,
`mode_set = false`). -/
structure PtyOpts where
  max_read_size : Nat
  link : Option String
  forcelink : Bool
  umode : Nat
  gmode : Nat
  omode : Nat
  mode_set : Bool
  owner : Option String
  group : Option String
  raw : Bool
deriving DecidableEq

def ptyOptsInit : PtyOpts :=
  { max_read_size := GENSIO_DEFAULT_BUF_SIZE, link := none,
    forcelink := false, umode := 6, gmode := 6, omode := 6,
    mode_set := false, owner := none, group := none, raw := false }

/-- The argument loop of `pty_gensio_alloc` (gensio_pty.c lines 488-523):
each recognized key updates the matching local; any `umode`/`gmode`/`omode`/
`perm` match also sets `mode_set`, with `perm` split into the three octal
digits; an unrecognized entry returns `GE_INVAL` (`none` here). -/
def pty_parse_args : List PtyArg → PtyOpts → Option PtyOpts
  | [], acc => some acc
  | a :: rest, acc =>
    match a with
    | .readbuf n => pty_parse_args rest { acc with max_read_size := n }
    | .link s => pty_parse_args rest { acc with link := some s }
    | .forcelink b => pty_parse_args rest { acc with forcelink := b }
    | .umode m =>
      pty_parse_args rest { acc with umode := m, mode_set := true }
    | .gmode m =>
      pty_parse_args rest { acc with gmode := m, mode_set := true }
    | .omode m =>
      pty_parse_args rest { acc with omode := m, mode_set := true }
    | .perm m =>
      pty_parse_args rest
        { acc with
            mode_set := true
            umode := m / 64 % 8
            gmode := m / 8 % 8
            omode := m % 8 }
    | .owner s => pty_parse_args rest { acc with owner := some s }
    | .group s => pty_parse_args rest { acc with group := some s }
    | .raw b => pty_parse_args rest { acc with raw := b }
    | .unknown _ => none

/-- An option is one of the slave-configuration options (sets `mode_set`,
`owner` or `group`). -/
def PtyArg.isSlaveCfg : PtyArg → Bool
  | .umode _ | .gmode _ | .omode _ | .perm _ | .owner _ | .group _ => true
  | _ => false

structure PtyAllocRes where
  err : Nat
  endpoint : Option (PtyOpts × Option (List String))
deriving DecidableEq

/-- `pty_gensio_alloc` (gensio_pty.c lines 469-596): parse the options; the
allocation steps before the consistency check (`zalloc`, `alloc_lock`, the
`strdup`s of `link`/`owner`/`group`) are abstracted by `preAllocsOk` and the
ones after it (`argv` copy, fd-LL, base gensio) by `postAllocsOk` — each
failing with `GE_NOMEM`.  With a non-empty `argv` and any slave-configuration
option set, the allocator fails with `GE_INCONSISTENT` before copying argv;
otherwise it produces the endpoint. -/
def pty_gensio_alloc (argv : List String) (args : List PtyArg)
    (preAllocsOk postAllocsOk : Bool) : PtyAllocRes :=
  match pty_parse_args args ptyOptsInit with
  | none => { err := GE_INVAL, endpoint := none }
  | some opts =>
    if ¬preAllocsOk then { err := GE_NOMEM, endpoint := none }
    else if argv ≠ [] ∧
        (opts.mode_set ∨ opts.owner.isSome ∨ opts.group.isSome) then
      { err := GE_INCONSISTENT, endpoint := none }
    else if ¬postAllocsOk then { err := GE_NOMEM, endpoint := none }
    else
      { err := 0,
        endpoint := some (opts, if argv ≠ [] then some argv else none) }

/-! ## Spec-worded rendering of claim C1

To compare the code against the spec sentence "Hard failure → close the new
descriptor, advance the cursor, retry", the sentence itself is rendered as a
predicate on a run of `tcp_try_open` (this definition follows the spec's
words, not the source): whenever the connect on the cursor entry fails hard
and a descriptor had been created, that descriptor is among the ones closed,
and the stored cursor has moved past the failing entry. -/
def tcp_try_open_closes_on_hard_fail (w : TcpWorld) (d : TcpData) : Prop :=
  ∀ a rest fd, d.curr_ai = a :: rest → w.socketRes = some fd →
    w.setupErr = 0 → (w.connect a).isHard = true →
    fd ∈ (tcp_try_open w d).closes ∧
    (tcp_try_open w d).tdata.curr_ai ≠ a :: rest

/-! ## Helper lemmas -/

/-- The errno carried by a hard connect failure. -/
def hardCode : ConnectRes → Nat
  | .hardErr e => e
  | _ => 0

lemma connect_loop_exhausted (w : TcpWorld) :
    ∀ (rest : List Addr) (a : Addr),
    (∀ x ∈ a :: rest, (w.connect x).isHard = true) →
    connect_loop w a rest =
      .exhausted
        (hardCode (w.connect ((a :: rest).getLast (List.cons_ne_nil a rest)))) := by
  intro rest
  induction rest with
  | nil =>
    intro a h
    have ha := h a (List.mem_cons_self a [])
    unfold connect_loop
    cases hca : w.connect a with
    | ok => rw [hca] at ha; simp [ConnectRes.isHard] at ha
    | inProgress => rw [hca] at ha; simp [ConnectRes.isHard] at ha
    | hardErr e => simp [hca, hardCode]
  | cons b rest2 ih =>
    intro a h
    have ha := h a (List.mem_cons_self a (b :: rest2))
    have hrest : ∀ x ∈ b :: rest2, (w.connect x).isHard = true := by
      intro x hx; exact h x (List.mem_cons_of_mem a hx)
    unfold connect_loop
    cases hca : w.connect a with
    | ok => rw [hca] at ha; simp [ConnectRes.isHard] at ha
    | inProgress => rw [hca] at ha; simp [ConnectRes.isHard] at ha
    | hardErr e =>
      rw [List.getLast_cons_cons]
      exact ih b hrest

lemma connect_loop_found (w : TcpWorld) :
    ∀ (xs : List Addr) (a : Addr) (rest : List Addr) (y : Addr) (ys : List Addr),
    a :: rest = xs ++ y :: ys →
    (∀ x ∈ xs, (w.connect x).isHard = true) →
    w.connect y = .ok →
    connect_loop w a rest = .found y ys := by
  intro xs
  induction xs with
  | nil =>
    intro a rest y ys heq _ hy
    simp at heq
    obtain ⟨h1, h2⟩ := heq
    subst h1; subst h2
    unfold connect_loop
    simp [hy]
  | cons x xs2 ih =>
    intro a rest y ys heq hhard hy
    rw [List.cons_append] at heq
    injection heq with h1 h2
    subst h1
    have hx : (w.connect a).isHard = true :=
      hhard a (List.mem_cons_self a xs2)
    have hne : rest ≠ [] := by
      rw [h2]
      exact List.append_ne_nil_of_right_ne_nil xs2 (List.cons_ne_nil y ys)
    obtain ⟨r1, r2, hr⟩ := List.exists_cons_of_ne_nil hne
    subst hr
    unfold connect_loop
    cases hca : w.connect a with
    | ok => rw [hca] at hx; simp [ConnectRes.isHard] at hx
    | inProgress => rw [hca] at hx; simp [ConnectRes.isHard] at hx
    | hardErr e =>
      exact ih r1 r2 y ys h2 (fun z hz => hhard z (List.mem_cons_of_mem _ hz)) hy

lemma tcpna_fd_cleared_numLeft (st : TcpnaData)
    (h1 : 0 < st.nr_accept_close_waiting)
    (h2 : st.nr_accept_close_waiting < U32) :
    (st.nr_accept_close_waiting + (U32 - 1)) % U32
      = st.nr_accept_close_waiting - 1 := by
  have h3 : st.nr_accept_close_waiting + (U32 - 1)
      = (st.nr_accept_close_waiting - 1) + U32 := by
    have : 1 ≤ U32 := Nat.one_le_two_pow
    omega
  rw [h3, Nat.add_mod_right, Nat.mod_eq_of_lt (by omega)]

lemma tcpna_fd_cleared_step_mid (fd : Nat) (st : TcpnaData)
    (h1 : 1 < st.nr_accept_close_waiting)
    (h2 : st.nr_accept_close_waiting < U32) :
    tcpna_fd_cleared fd st =
      { st := { st with nr_accept_close_waiting :=
                  st.nr_accept_close_waiting - 1 },
        closedFd := fd, freedArray := false, firedDone := false,
        derefed := false } := by
  have hnl := tcpna_fd_cleared_numLeft st (by omega) h2
  have hnz : st.nr_accept_close_waiting - 1 ≠ 0 := by omega
  unfold tcpna_fd_cleared
  rw [hnl, if_neg hnz]

lemma tcpna_fd_cleared_step_last (fd : Nat) (st : TcpnaData)
    (h1 : st.nr_accept_close_waiting = 1) :
    tcpna_fd_cleared fd st =
      { st := { st with
                  nr_accept_close_waiting := 0
                  in_shutdown := false
                  acceptfds := none
                  refcount := st.refcount - 1 },
        closedFd := fd,
        freedArray := st.acceptfds.isSome,
        firedDone := st.has_shutdown_done,
        derefed := true } := by
  have hU : 1 ≤ U32 := Nat.one_le_two_pow
  have hnl : (st.nr_accept_close_waiting + (U32 - 1)) % U32 = 0 := by
    rw [h1]
    have he : 1 + (U32 - 1) = U32 := by omega
    rw [he, Nat.mod_self]
  unfold tcpna_fd_cleared
  rw [hnl, if_pos rfl]

lemma run_cleared_cons (fd : Nat) (rest : List Nat) (st : TcpnaData) :
    run_cleared (fd :: rest) st =
      ((run_cleared rest (tcpna_fd_cleared fd st).st).1,
       (if (tcpna_fd_cleared fd st).freedArray then 1 else 0)
         + (run_cleared rest (tcpna_fd_cleared fd st).st).2.1,
       (if (tcpna_fd_cleared fd st).firedDone then 1 else 0)
         + (run_cleared rest (tcpna_fd_cleared fd st).st).2.2) := rfl

lemma run_cleared_no_fire :
    ∀ (fds : List Nat) (st : TcpnaData) (m : Nat),
    st.nr_accept_close_waiting = fds.length + m → 0 < m →
    fds.length + m < U32 →
    run_cleared fds st = ({ st with nr_accept_close_waiting := m }, 0, 0) := by
  intro fds
  induction fds with
  | nil =>
    intro st m hc hm _
    simp only [List.length_nil, Nat.zero_add] at hc
    simp [run_cleared, ← hc]
  | cons fd rest ih =>
    intro st m hc hm hlt
    simp only [List.length_cons] at hc hlt
    have hstep := tcpna_fd_cleared_step_mid fd st (by omega) (by omega)
    rw [run_cleared_cons, hstep]
    have hrec := ih { st with nr_accept_close_waiting :=
        st.nr_accept_close_waiting - 1 } m (by simp; omega) hm (by omega)
    dsimp only
    rw [hrec]
    simp

lemma run_cleared_fires :
    ∀ (fds : List Nat) (st : TcpnaData),
    st.nr_accept_close_waiting = fds.length → 0 < fds.length →
    fds.length < U32 →
    run_cleared fds st =
      ({ st with
           nr_accept_close_waiting := 0
           in_shutdown := false
           acceptfds := none
           refcount := st.refcount - 1 },
       if st.acceptfds.isSome then 1 else 0,
       if st.has_shutdown_done then 1 else 0) := by
  intro fds
  induction fds with
  | nil => intro st _ hpos _; simp at hpos
  | cons fd rest ih =>
    intro st hc hpos hlt
    simp only [List.length_cons] at hc hlt
    cases rest with
    | nil =>
      have hone : st.nr_accept_close_waiting = 1 := by
        simp only [List.length_nil] at hc; omega
      have hstep := tcpna_fd_cleared_step_last fd st hone
      rw [run_cleared_cons, hstep]
      simp [run_cleared]
    | cons fd2 rest2 =>
      simp only [List.length_cons] at hc hlt
      have hstep := tcpna_fd_cleared_step_mid fd st (by omega) (by omega)
      rw [run_cleared_cons, hstep]
      have hrec := ih { st with nr_accept_close_waiting :=
          st.nr_accept_close_waiting - 1 }
        (by simp only [List.length_cons]; simp; omega)
        (by simp) (by simp only [List.length_cons]; omega)
      dsimp only
      rw [hrec]
      simp

lemma pty_run_state_stable (ops : List PtyOp) (t : PtyState)
    (h : t.exit_code_set = true) : pty_run_state ops t = t := by
  induction ops with
  | nil => rfl
  | cons op rest ih =>
    cases op with
    | reap w =>
      have hstep : (pty_check_exit_code w t).st = t := by
        simp [pty_check_exit_code, h]
      simp only [pty_run_state, hstep]
      exact ih
    | exit_code_get =>
      simp only [pty_run_state]
      exact ih

lemma pty_parse_args_mono :
    ∀ (args : List PtyArg) (acc opts : PtyOpts),
    pty_parse_args args acc = some opts →
    (acc.mode_set = true → opts.mode_set = true) ∧
    (acc.owner.isSome = true → opts.owner.isSome = true) ∧
    (acc.group.isSome = true → opts.group.isSome = true) := by
  intro args
  induction args with
  | nil =>
    intro acc opts h
    simp [pty_parse_args] at h
    subst h
    exact ⟨id, id, id⟩
  | cons a rest ih =>
    intro acc opts h
    cases a with
    | readbuf n =>
      have h9 := ih _ _ h
      exact ⟨h9.1, h9.2.1, h9.2.2⟩
    | link s =>
      have h9 := ih _ _ h
      exact ⟨h9.1, h9.2.1, h9.2.2⟩
    | forcelink b =>
      have h9 := ih _ _ h
      exact ⟨h9.1, h9.2.1, h9.2.2⟩
    | umode m =>
      have h9 := ih _ _ h
      exact ⟨fun _ => h9.1 rfl, h9.2.1, h9.2.2⟩
    | gmode m =>
      have h9 := ih _ _ h
      exact ⟨fun _ => h9.1 rfl, h9.2.1, h9.2.2⟩
    | omode m =>
      have h9 := ih _ _ h
      exact ⟨fun _ => h9.1 rfl, h9.2.1, h9.2.2⟩
    | perm m =>
      have h9 := ih _ _ h
      exact ⟨fun _ => h9.1 rfl, h9.2.1, h9.2.2⟩
    | owner s =>
      have h9 := ih _ _ h
      exact ⟨h9.1, fun _ => h9.2.1 rfl, h9.2.2⟩
    | group s =>
      have h9 := ih _ _ h
      exact ⟨h9.1, h9.2.1, fun _ => h9.2.2 rfl⟩
    | raw b =>
      have h9 := ih _ _ h
      exact ⟨h9.1, h9.2.1, h9.2.2⟩
    | unknown s => simp [pty_parse_args] at h

lemma pty_parse_slave_present :
    ∀ (args : List PtyArg) (acc opts : PtyOpts) (a : PtyArg),
    a ∈ args → a.isSlaveCfg = true →
    pty_parse_args args acc = some opts →
    (opts.mode_set = true ∨ opts.owner.isSome = true ∨
     opts.group.isSome = true) := by
  intro args
  induction args with
  | nil => intro acc opts a ha; simp at ha
  | cons b rest ih =>
    intro acc opts a ha hs hp
    rcases List.mem_cons.mp ha with h1 | h2
    · subst h1
      cases a <;> simp [PtyArg.isSlaveCfg] at hs <;>
        simp [pty_parse_args] at hp <;>
        [ (exact Or.inl ((pty_parse_args_mono _ _ _ hp).1 rfl));
          (exact Or.inl ((pty_parse_args_mono _ _ _ hp).1 rfl));
          (exact Or.inl ((pty_parse_args_mono _ _ _ hp).1 rfl));
          (exact Or.inl ((pty_parse_args_mono _ _ _ hp).1 rfl));
          (exact Or.inr (Or.inl ((pty_parse_args_mono _ _ _ hp).2.1 rfl)));
          (exact Or.inr (Or.inr ((pty_parse_args_mono _ _ _ hp).2.2 rfl)))]
    · cases b <;> simp [pty_parse_args] at hp <;> exact ih _ _ _ h2 hs hp

lemma isHard_hardErr {r : ConnectRes} (h : r.isHard = true) :
    r = .hardErr (hardCode r) := by
  cases r with
  | ok => simp [ConnectRes.isHard] at h
  | inProgress => simp [ConnectRes.isHard] at h
  | hardErr e => rfl

/-! ## Claim theorems -/

/-- Concrete scenario for claim C1: a two-entry address list whose first
entry fails hard (`ECONNREFUSED`) and whose second entry connects
immediately. -/
def c1world : TcpWorld :=
  { socketRes := some 5, socketErrno := 0, setupErr := 0,
    connect := fun a => if a.id = 1 then .hardErr 111 else .ok }

def c1data : TcpData :=
  { ai := [⟨1⟩, ⟨2⟩], curr_ai := [⟨1⟩, ⟨2⟩], raddr := none, last_err := 0 }

/-- Claim C1, counterexample: the spec says a hard connect failure closes
the new descriptor and advances the cursor before retrying, but in the run
where the first entry fails hard and the second succeeds, `tcp_try_open`
performs no close at all (`closes = []`), calls `socket()` once, succeeds,
and leaves the stored cursor where it was. -/
theorem tcp_try_open_hard_fail_counterexample :
    ¬tcp_try_open_closes_on_hard_fail c1world c1data ∧
    (c1world.connect ⟨1⟩).isHard = true ∧
    (tcp_try_open c1world c1data).err = 0 ∧
    (tcp_try_open c1world c1data).closes = [] ∧
    (tcp_try_open c1world c1data).socketCalls = 1 ∧
    (tcp_try_open c1world c1data).tdata.curr_ai = [⟨1⟩, ⟨2⟩] := by
  refine ⟨fun h => ?_, by decide, by decide, by decide, by decide, by decide⟩
  have h2 := h ⟨1⟩ [⟨2⟩] 5 (by decide) (by decide) (by decide) (by decide)
  exact absurd h2.1 (by decide)

/-- Claim C1 (amended): when a non-blocking connect to the current address
fails hard, the driver neither closes the descriptor nor advances the
stored cursor; it retries the connect on the same single descriptor with
the next list entry.  Only when every remaining entry has failed hard does
it close the descriptor (exactly once) and return the errno of the last
connect attempt; a later immediate success returns the same descriptor and
records that entry as the remote address. -/
theorem tcp_try_open_hard_fail_amended
    (w : TcpWorld) (d : TcpData) (a : Addr) (rest : List Addr) (fd : Nat)
    (hc : d.curr_ai = a :: rest)
    (hs : w.socketRes = some fd)
    (hsetup : w.setupErr = 0) :
    (tcp_try_open w d).socketCalls = 1 ∧
    ((∀ x ∈ a :: rest, (w.connect x).isHard = true) →
      w.connect ((a :: rest).getLast (List.cons_ne_nil a rest))
          = .hardErr (tcp_try_open w d).err ∧
      (tcp_try_open w d).closes = [fd] ∧
      (tcp_try_open w d).fdOut = none ∧
      (tcp_try_open w d).tdata = d) ∧
    (∀ xs y ys, a :: rest = xs ++ y :: ys →
      (∀ x ∈ xs, (w.connect x).isHard = true) → w.connect y = .ok →
      (tcp_try_open w d).err = 0 ∧
      (tcp_try_open w d).closes = [] ∧
      (tcp_try_open w d).fdOut = some fd ∧
      (tcp_try_open w d).tdata = { d with raddr := some y }) := by
  have key : tcp_try_open w d =
      match connect_loop w a rest with
      | .found b _ =>
        { err := 0, fdOut := some fd, tdata := { d with raddr := some b },
          socketCalls := 1, closes := [], nullDeref := false }
      | .inProg b rest2 =>
        { err := EINPROGRESS, fdOut := some fd,
          tdata := { d with curr_ai := b :: rest2 },
          socketCalls := 1, closes := [], nullDeref := false }
      | .exhausted e =>
        { err := e, fdOut := none, tdata := d, socketCalls := 1,
          closes := [fd], nullDeref := false } := by
    unfold tcp_try_open
    rw [hc, hs]
    simp [hsetup]
  refine ⟨?_, ?_, ?_⟩
  · rw [key]
    cases connect_loop w a rest <;> rfl
  · intro hhard
    have hle := connect_loop_exhausted w rest a hhard
    rw [key, hle]
    have hmem : (a :: rest).getLast (List.cons_ne_nil a rest) ∈ a :: rest :=
      List.getLast_mem _
    have hih := hhard _ hmem
    exact ⟨isHard_hardErr hih, rfl, rfl, rfl⟩
  · intro xs y ys heq hxs hy
    have hlf := connect_loop_found w xs a rest y ys heq hxs hy
    rw [key, hlf]
    exact ⟨rfl, rfl, rfl, rfl⟩

/-- Concrete all-hard scenario used to witness the amended claim C1. -/
def c1hardworld : TcpWorld :=
  { socketRes := some 6, socketErrno := 0, setupErr := 0,
    connect := fun a => .hardErr (100 + a.id) }

def c1harddata : TcpData :=
  { ai := [⟨1⟩, ⟨2⟩], curr_ai := [⟨1⟩, ⟨2⟩], raddr := none, last_err := 0 }

/-- Witness for the amended claim C1 at a concrete two-entry list where
both entries fail hard: the run closes descriptor 6 exactly once and
returns the second (last) entry's errno 102. -/
theorem tcp_try_open_hard_fail_amended_witness :
    c1harddata.curr_ai = [⟨1⟩, ⟨2⟩] ∧
    c1hardworld.socketRes = some 6 ∧
    c1hardworld.setupErr = 0 ∧
    ((tcp_try_open c1hardworld c1harddata).socketCalls = 1 ∧
     ((∀ x ∈ [Addr.mk 1, Addr.mk 2], (c1hardworld.connect x).isHard = true) →
       c1hardworld.connect
           (([Addr.mk 1, Addr.mk 2]).getLast
             (List.cons_ne_nil (Addr.mk 1) [Addr.mk 2]))
           = .hardErr (tcp_try_open c1hardworld c1harddata).err ∧
       (tcp_try_open c1hardworld c1harddata).closes = [6] ∧
       (tcp_try_open c1hardworld c1harddata).fdOut = none ∧
       (tcp_try_open c1hardworld c1harddata).tdata = c1harddata) ∧
     (∀ xs y ys, [Addr.mk 1, Addr.mk 2] = xs ++ y :: ys →
       (∀ x ∈ xs, (c1hardworld.connect x).isHard = true) →
       c1hardworld.connect y = .ok →
       (tcp_try_open c1hardworld c1harddata).err = 0 ∧
       (tcp_try_open c1hardworld c1harddata).closes = [] ∧
       (tcp_try_open c1hardworld c1harddata).fdOut = some 6 ∧
       (tcp_try_open c1hardworld c1harddata).tdata
         = { c1harddata with raddr := some y })) :=
  ⟨by decide, by decide, by decide,
   tcp_try_open_hard_fail_amended c1hardworld c1harddata ⟨1⟩ [⟨2⟩] 6
     (by decide) (by decide) (by decide)⟩

/-- Concrete scenario for claim C2: a raw detached PTY (`raw = true`, no
argv) whose `gensio_setup_pty` fails (for example a symlink collision with
`forcelink` off) while every other OS call succeeds. -/
def c2world : SpawnWorld :=
  { add_iod_err := 0, iod_handle := 7, set_nonblock_err := 0,
    setup_pty_err := GE_EXISTS, setup_pty_link_created := false,
    makeraw_err := 0, argv_ctl_err := 0, env_ctl_err := 0,
    start_ctl_err := 0, pid_ctl_err := 0, pid_val := 1234 }

def c2state : PtyState :=
  { iod := none, pid := -1, argv := none, env := none, raw := true,
    link_created := false, exit_code := 0, exit_code_set := false }

/-- Claim C2, evaluated at the failing input: `gensio_setup_pty` fails with
a nonzero error, yet `gensio_setup_child_on_pty` returns success, never
runs `gensio_cleanup_pty`, never closes the descriptor, and installs the
descriptor in the state — the source assigns the `gensio_setup_pty` result
to `err` without testing it, and the subsequent `makeraw` call overwrites
it, so a setup-pty failure does not abort the sequence as the spec
requires. -/
theorem gensio_setup_child_on_pty_drops_setup_pty_err :
    c2world.setup_pty_err = GE_EXISTS ∧ GE_EXISTS ≠ 0 ∧
    (gensio_setup_child_on_pty c2world c2state).err = 0 ∧
    (gensio_setup_child_on_pty c2world c2state).cleanup_ran = false ∧
    (gensio_setup_child_on_pty c2world c2state).closed_iod = false ∧
    (gensio_setup_child_on_pty c2world c2state).st.iod = some 7 := by
  decide

/-- Claim C7: for a single-entry address list whose connect went
in-progress, a nonzero pending socket error makes `tcp_check_open` store it
in `last_err` and return it, and the subsequent `tcp_retry_open` advances
the cursor past the end of the (empty) remainder and returns that stored
error without touching the OS again. -/
theorem tcp_single_addr_inprogress_then_fail
    (w : TcpWorld) (cw : CheckWorld) (d : TcpData) (a : Addr) (e : Nat)
    (hc : d.curr_ai = [a]) (hso : cw.sockoptErr = none)
    (hpe : cw.pendingErr = e) (hne : e ≠ 0) :
    (tcp_check_open cw d).err = e ∧
    (tcp_check_open cw d).tdata.last_err = e ∧
    (tcp_check_open cw d).tdata.curr_ai = [a] ∧
    (tcp_retry_open w (tcp_check_open cw d).tdata).err = e ∧
    (tcp_retry_open w (tcp_check_open cw d).tdata).fdOut = none ∧
    (tcp_retry_open w (tcp_check_open cw d).tdata).socketCalls = 0 ∧
    (tcp_retry_open w (tcp_check_open cw d).tdata).tdata.curr_ai = [] := by
  have hco : tcp_check_open cw d =
      { err := e, tdata := { d with last_err := e }, nullDeref := false } := by
    unfold tcp_check_open
    rw [hso, hpe]
    simp [hne]
  have hro : tcp_retry_open w { d with last_err := e } =
      { err := e, fdOut := none,
        tdata := { d with last_err := e, curr_ai := [] },
        socketCalls := 0, closes := [], nullDeref := false } := by
    unfold tcp_retry_open
    simp [hc]
  rw [hco, hro]
  exact ⟨rfl, rfl, by simp [hc], rfl, rfl, rfl, rfl⟩

/-- Witness for claim C7 at a concrete single-entry list with pending
socket error 111. -/
theorem tcp_single_addr_inprogress_then_fail_witness :
    ({ ai := [⟨3⟩], curr_ai := [⟨3⟩], raddr := none,
       last_err := 0 } : TcpData).curr_ai = [⟨3⟩] ∧
    ({ sockoptErr := none, pendingErr := 111 } : CheckWorld).sockoptErr
      = none ∧
    ({ sockoptErr := none, pendingErr := 111 } : CheckWorld).pendingErr
      = 111 ∧
    (111 : Nat) ≠ 0 ∧
    ((tcp_check_open { sockoptErr := none, pendingErr := 111 }
        { ai := [⟨3⟩], curr_ai := [⟨3⟩], raddr := none, last_err := 0 }).err
        = 111 ∧
     (tcp_check_open { sockoptErr := none, pendingErr := 111 }
        { ai := [⟨3⟩], curr_ai := [⟨3⟩], raddr := none,
          last_err := 0 }).tdata.last_err = 111 ∧
     (tcp_check_open { sockoptErr := none, pendingErr := 111 }
        { ai := [⟨3⟩], curr_ai := [⟨3⟩], raddr := none,
          last_err := 0 }).tdata.curr_ai = [⟨3⟩] ∧
     (tcp_retry_open c1world
        (tcp_check_open { sockoptErr := none, pendingErr := 111 }
          { ai := [⟨3⟩], curr_ai := [⟨3⟩], raddr := none,
            last_err := 0 }).tdata).err = 111 ∧
     (tcp_retry_open c1world
        (tcp_check_open { sockoptErr := none, pendingErr := 111 }
          { ai := [⟨3⟩], curr_ai := [⟨3⟩], raddr := none,
            last_err := 0 }).tdata).fdOut = none ∧
     (tcp_retry_open c1world
        (tcp_check_open { sockoptErr := none, pendingErr := 111 }
          { ai := [⟨3⟩], curr_ai := [⟨3⟩], raddr := none,
            last_err := 0 }).tdata).socketCalls = 0 ∧
     (tcp_retry_open c1world
        (tcp_check_open { sockoptErr := none, pendingErr := 111 }
          { ai := [⟨3⟩], curr_ai := [⟨3⟩], raddr := none,
            last_err := 0 }).tdata).tdata.curr_ai = []) :=
  ⟨by decide, by decide, by decide, by decide,
   tcp_single_addr_inprogress_then_fail c1world
     { sockoptErr := none, pendingErr := 111 }
     { ai := [⟨3⟩], curr_ai := [⟨3⟩], raddr := none, last_err := 0 }
     ⟨3⟩ 111 (by decide) (by decide) (by decide) (by decide)⟩

/-- Claim C10: `tcp_get_raddr` clamps the requested length to the stored
remote-address length, copies exactly that prefix of the stored address,
writes the clamped length back, and always returns 0. -/
theorem tcp_get_raddr_clamps (remote : List Nat) (req : Nat) :
    tcp_get_raddr remote req
      = (remote.take (min req remote.length), min req remote.length, 0) := by
  have h : (if req > remote.length then remote.length else req)
      = min req remote.length := by
    rw [Nat.min_def]
    split <;> split <;> omega
  simp only [tcp_get_raddr]
  rw [h]

/-- Claim C3: after a successful `tcpna_shutdown` over `fds.length`
listening descriptors, the countdown decrements strictly monotonically
(it equals `fds.length - k` after `k` cleared callbacks), no free of the
descriptor array and no shutdown-done call happens before the last
callback, and the run of all callbacks frees and nulls the array exactly
once and fires the shutdown-done callback exactly once. -/
theorem tcpna_shutdown_cleared_protocol
    (st : TcpnaData) (fds arr : List Nat)
    (hsetup : st.setup = true)
    (hn : st.nr_acceptfds = fds.length)
    (harr : st.acceptfds = some arr)
    (hpos : 0 < fds.length)
    (hlt : fds.length < U32) :
    (tcpna_shutdown true st).1 = 0 ∧
    (∀ k, k ≤ fds.length →
      (run_cleared (List.take k fds)
          (tcpna_shutdown true st).2).1.nr_accept_close_waiting
        = fds.length - k) ∧
    (∀ k, k < fds.length →
      (run_cleared (List.take k fds) (tcpna_shutdown true st).2).2 = (0, 0)) ∧
    (run_cleared fds (tcpna_shutdown true st).2).2 = (1, 1) ∧
    (run_cleared fds (tcpna_shutdown true st).2).1.acceptfds = none ∧
    (run_cleared fds
        (tcpna_shutdown true st).2).1.nr_accept_close_waiting = 0 := by
  have key : (tcpna_shutdown true st).2 = tcpna_do_shutdown true st := by
    simp [tcpna_shutdown, hsetup]
  have h1 : (tcpna_do_shutdown true st).nr_accept_close_waiting
      = fds.length := by
    simp [tcpna_do_shutdown, hn]
  have hfull := run_cleared_fires fds (tcpna_do_shutdown true st) h1 hpos hlt
  have hcut : ∀ k, k < fds.length →
      run_cleared (List.take k fds) (tcpna_do_shutdown true st)
        = ({ tcpna_do_shutdown true st with
               nr_accept_close_waiting := fds.length - k }, 0, 0) := by
    intro k hklt
    have htk : (List.take k fds).length = k := by
      rw [List.length_take]; omega
    exact run_cleared_no_fire (List.take k fds) (tcpna_do_shutdown true st)
      (fds.length - k) (by rw [h1, htk]; omega) (by omega)
      (by rw [htk]; omega)
  refine ⟨by simp [tcpna_shutdown, hsetup], ?_, ?_, ?_, ?_, ?_⟩
  · intro k hk
    rw [key]
    rcases Nat.eq_or_lt_of_le hk with heq | hklt
    · subst heq
      rw [List.take_length, hfull]
      simp
    · rw [hcut k hklt]
  · intro k hklt
    rw [key, hcut k hklt]
  · rw [key, hfull]
    simp [tcpna_do_shutdown, harr]
  · rw [key, hfull]
  · rw [key, hfull]

/-- Concrete accepter state for the claim C3 witness: two listening
descriptors, a live descriptor array, a stored shutdown-done callback. -/
def c3st : TcpnaData :=
  { setup := true, enabled := true, in_shutdown := false, refcount := 2,
    acceptfds := some [7, 8], nr_acceptfds := 2,
    nr_accept_close_waiting := 0, has_shutdown_done := false }

set_option maxRecDepth 8000 in
/-- Witness for claim C3 at a concrete accepter with two listening
descriptors. -/
theorem tcpna_shutdown_cleared_protocol_witness :
    c3st.setup = true ∧
    c3st.nr_acceptfds = ([7, 8] : List Nat).length ∧
    c3st.acceptfds = some [7, 8] ∧
    0 < ([7, 8] : List Nat).length ∧
    ([7, 8] : List Nat).length < U32 ∧
    ((tcpna_shutdown true c3st).1 = 0 ∧
     (∀ k, k ≤ ([7, 8] : List Nat).length →
       (run_cleared (List.take k [7, 8])
           (tcpna_shutdown true c3st).2).1.nr_accept_close_waiting
         = ([7, 8] : List Nat).length - k) ∧
     (∀ k, k < ([7, 8] : List Nat).length →
       (run_cleared (List.take k [7, 8])
           (tcpna_shutdown true c3st).2).2 = (0, 0)) ∧
     (run_cleared [7, 8] (tcpna_shutdown true c3st).2).2 = (1, 1) ∧
     (run_cleared [7, 8] (tcpna_shutdown true c3st).2).1.acceptfds = none ∧
     (run_cleared [7, 8]
         (tcpna_shutdown true c3st).2).1.nr_accept_close_waiting = 0) :=
  ⟨by decide, by decide, by decide, by decide,
   by norm_num [U32],
   tcpna_shutdown_cleared_protocol c3st [7, 8] [7, 8] (by decide) (by decide)
     (by decide) (by decide) (by norm_num [U32])⟩

/-- Claim C4: before any successful reap (`exit_code_set` still false) the
EXIT_CODE control returns `GE_NOTREADY`; the flag becomes true in one step
exactly when there is a child (`pid ≠ -1`) and `wait_subprog` reported an
exit code, which is then the stored code; once the flag is set a reap
returns success immediately without calling `wait_subprog` and the state —
in particular the stored code — is unchanged by any further sequence of
reap / EXIT_CODE operations, with EXIT_CODE returning that stored code. -/
theorem pty_exit_code_protocol
    (u t : PtyState) (w : WaitRes) (ops : List PtyOp)
    (hu : u.exit_code_set = false) (ht : t.exit_code_set = true) :
    pty_control_exit_code true u = { err := GE_NOTREADY, data := none } ∧
    ((pty_check_exit_code w u).st.exit_code_set = true ↔
      (u.pid ≠ -1 ∧ ∃ c, w = .done c ∧
        (pty_check_exit_code w u).st.exit_code = c ∧
        (pty_check_exit_code w u).called_wait = true)) ∧
    pty_check_exit_code w t = { err := 0, called_wait := false, st := t } ∧
    pty_run_state ops t = t ∧
    pty_control_exit_code true t = { err := 0, data := some t.exit_code } := by
  refine ⟨?_, ?_, ?_, pty_run_state_stable ops t ht, ?_⟩
  · simp [pty_control_exit_code, hu]
  · by_cases hpid : u.pid = -1
    · simp [pty_check_exit_code, hu, hpid]
    · cases w with
      | done c => simp [pty_check_exit_code, hu, hpid]
      | inprog => simp [pty_check_exit_code, hu, hpid]
      | failed e => simp [pty_check_exit_code, hu, hpid]
  · simp [pty_check_exit_code, ht]
  · simp [pty_control_exit_code, ht]

/-- Concrete PTY states for the claim C4 witness: one with a live child not
yet reaped, one with a captured exit code 3. -/
def c4unset : PtyState :=
  { iod := none, pid := 5, argv := none, env := none, raw := false,
    link_created := false, exit_code := 0, exit_code_set := false }

def c4set : PtyState :=
  { iod := none, pid := 5, argv := none, env := none, raw := false,
    link_created := false, exit_code := 3, exit_code_set := true }

/-- Witness for claim C4 at concrete states, a `wait_subprog` result that
delivers exit code 9, and a two-operation continuation. -/
theorem pty_exit_code_protocol_witness :
    c4unset.exit_code_set = false ∧
    c4set.exit_code_set = true ∧
    (pty_control_exit_code true c4unset
        = { err := GE_NOTREADY, data := none } ∧
     ((pty_check_exit_code (.done 9) c4unset).st.exit_code_set = true ↔
       (c4unset.pid ≠ -1 ∧ ∃ c, WaitRes.done 9 = .done c ∧
         (pty_check_exit_code (.done 9) c4unset).st.exit_code = c ∧
         (pty_check_exit_code (.done 9) c4unset).called_wait = true)) ∧
     pty_check_exit_code (.done 9) c4set
        = { err := 0, called_wait := false, st := c4set } ∧
     pty_run_state [.reap .inprog, .exit_code_get] c4set = c4set ∧
     pty_control_exit_code true c4set
        = { err := 0, data := some c4set.exit_code }) :=
  ⟨by decide, by decide,
   pty_exit_code_protocol c4unset c4set (.done 9)
     [.reap .inprog, .exit_code_get] (by decide) (by decide)⟩

/-- Claim C5: when argv is non-empty and the option vector contains any
slave-configuration option (`umode`/`gmode`/`omode`/`perm`, `owner` or
`group`), `pty_gensio_alloc` fails with `GE_INCONSISTENT` and produces no
endpoint (given that parsing succeeds and the allocations preceding the
check succeed). -/
theorem pty_alloc_inconsistent
    (argv : List String) (args : List PtyArg) (a : PtyArg)
    (opts : PtyOpts) (post : Bool)
    (hargv : argv ≠ [])
    (hmem : a ∈ args) (hslave : a.isSlaveCfg = true)
    (hparse : pty_parse_args args ptyOptsInit = some opts) :
    pty_gensio_alloc argv args true post
      = { err := GE_INCONSISTENT, endpoint := none } := by
  have hsp := pty_parse_slave_present args ptyOptsInit opts a hmem hslave hparse
  unfold pty_gensio_alloc
  rw [hparse]
  rcases hsp with h | h | h <;> simp [h, hargv]

/-- Witness for claim C5: argv `["/bin/true"]` with option `perm=0600`
(decimal 384) is rejected with `GE_INCONSISTENT`. -/
theorem pty_alloc_inconsistent_witness :
    (["/bin/true"] : List String) ≠ [] ∧
    PtyArg.perm 384 ∈ [PtyArg.perm 384] ∧
    (PtyArg.perm 384).isSlaveCfg = true ∧
    pty_parse_args [PtyArg.perm 384] ptyOptsInit
      = some { max_read_size := GENSIO_DEFAULT_BUF_SIZE, link := none,
               forcelink := false, umode := 6, gmode := 0, omode := 0,
               mode_set := true, owner := none, group := none,
               raw := false } ∧
    pty_gensio_alloc ["/bin/true"] [PtyArg.perm 384] true true
      = { err := GE_INCONSISTENT, endpoint := none } :=
  ⟨by decide, by decide, by decide, by decide,
   pty_alloc_inconsistent ["/bin/true"] [PtyArg.perm 384] (PtyArg.perm 384)
     { max_read_size := GENSIO_DEFAULT_BUF_SIZE, link := none,
       forcelink := false, umode := 6, gmode := 0, omode := 0,
       mode_set := true, owner := none, group := none, raw := false }
     true (by decide) (by decide) (by decide) (by decide)⟩

/-- Concrete input for claim C6: a scan that succeeds for TCP with a port
and yields the single extra option `nodelay`. -/
def c6acc : TcpnaAccData :=
  { max_read_size := GENSIO_DEFAULT_BUF_SIZE, nodelay := false }

def c6scan : ScanRes :=
  { scanErr := 0, protocolIsTcp := true, isPortSet := true,
    iargs := [.nodelay true], allocErr := 0 }

/-- Claim C6, evaluated at the failing input: the option loop tests
`nodelay` against the local output vector `args` (all NULL at that point)
instead of the parsed vector `iargs`, so a parsed `nodelay` option never
matches and `tcpna_str_to_gensio` fails with `EINVAL` — even though the
recognizer does match the parsed entry itself, as the last conjunct
shows. -/
theorem tcpna_str_to_gensio_nodelay_wrong_vector :
    tcpna_str_to_gensio c6acc c6scan = { err := EINVAL, fwdArgs := none } ∧
    tcpna_args_loop [none, none, none, none] [TcpArg.nodelay true] 0
        GENSIO_DEFAULT_BUF_SIZE none false = none ∧
    check_keybool_nodelay (some (TcpArg.nodelay true)) = some true := by
  decide

/-- Claim C8: whenever the option loop of `tcpna_str_to_gensio` produces a
read-buffer value different from `GENSIO_DEFAULT_BUF_SIZE`, the forwarded
argument vector starts with a `readbuf` option built from the accepter's
stored `max_read_size` field — not from the value the loop produced. -/
theorem tcpna_readbuf_forwarded_from_stored
    (nd : TcpnaAccData) (scan : ScanRes) (v : Nat) (l : Option TcpArg)
    (b : Bool)
    (h0 : scan.scanErr = 0) (h1 : scan.protocolIsTcp = true)
    (h2 : scan.isPortSet = true)
    (hloop : tcpna_args_loop [none, none, none, none] scan.iargs 0
        nd.max_read_size none false = some (v, l, b))
    (hv : v ≠ GENSIO_DEFAULT_BUF_SIZE) :
    (tcpna_str_to_gensio nd scan).fwdArgs
      = some (([TcpArg.readbuf nd.max_read_size]
          ++ (match l with | some x => [x] | none => []))
          ++ (if b then [TcpArg.nodelay true] else [])) := by
  unfold tcpna_str_to_gensio
  rw [h0]
  simp [h1, h2, hloop, hv]
  cases l <;> rfl

/-- Witness for claim C8: the accepter stores read-buffer size 2048, the
input string carries `readbuf=64`, and the forwarded vector contains
`readbuf` 2048. -/
theorem tcpna_readbuf_forwarded_from_stored_witness :
    ({ scanErr := 0, protocolIsTcp := true, isPortSet := true,
       iargs := [.readbuf 64], allocErr := 0 } : ScanRes).scanErr = 0 ∧
    ({ scanErr := 0, protocolIsTcp := true, isPortSet := true,
       iargs := [.readbuf 64], allocErr := 0 } : ScanRes).protocolIsTcp
      = true ∧
    ({ scanErr := 0, protocolIsTcp := true, isPortSet := true,
       iargs := [.readbuf 64], allocErr := 0 } : ScanRes).isPortSet = true ∧
    tcpna_args_loop [none, none, none, none]
        ({ scanErr := 0, protocolIsTcp := true, isPortSet := true,
           iargs := [.readbuf 64], allocErr := 0 } : ScanRes).iargs 0
        ({ max_read_size := 2048, nodelay := false }
          : TcpnaAccData).max_read_size none false
      = some (64, none, false) ∧
    (64 : Nat) ≠ GENSIO_DEFAULT_BUF_SIZE ∧
    (tcpna_str_to_gensio { max_read_size := 2048, nodelay := false }
        { scanErr := 0, protocolIsTcp := true, isPortSet := true,
          iargs := [.readbuf 64], allocErr := 0 }).fwdArgs
      = some (([TcpArg.readbuf
            ({ max_read_size := 2048, nodelay := false }
              : TcpnaAccData).max_read_size]
          ++ (match (none : Option TcpArg) with
              | some x => [x] | none => []))
          ++ (if false then [TcpArg.nodelay true] else [])) :=
  ⟨by decide, by decide, by decide, by decide, by decide,
   tcpna_readbuf_forwarded_from_stored
     { max_read_size := 2048, nodelay := false }
     { scanErr := 0, protocolIsTcp := true, isPortSet := true,
       iargs := [.readbuf 64], allocErr := 0 }
     64 none false (by decide) (by decide) (by decide) (by decide)
     (by decide)⟩

/-- Claim C9: with the descriptor pointer nulled (as `pty_check_close`
leaves it) the RADDR_BIN get with a caller length of at least
`sizeof(int)` reaches the unguarded read through the null `iod` pointer;
RADDR_BIN can never return `GE_NOTREADY` in any state (the error branch
LADDR reaches in the closed state is unreachable for it); and LADDR in the
same closed state does return `GE_NOTREADY`. -/
theorem pty_raddr_bin_unguarded
    (t : PtyState) (dl : Nat) (pts : PtsRes)
    (hiod : t.iod = none) (hdl : 4 ≤ dl) :
    pty_control_raddr_bin true dl t = .derefNull ∧
    (∀ (s : PtyState) (g : Bool) (dl2 : Nat) (v : Option Nat),
      pty_control_raddr_bin g dl2 s ≠ .ret GE_NOTREADY v) ∧
    pty_control_laddr true 0 pts t = .ret GE_NOTREADY none := by
  refine ⟨?_, ?_, ?_⟩
  · simp [pty_control_raddr_bin, hiod, hdl]
  · intro s g dl2 v h
    unfold pty_control_raddr_bin at h
    by_cases hg : g
    · simp only [hg] at h
      by_cases h4 : 4 ≤ dl2
      · simp only [h4, if_pos, if_true] at h
        cases hs : s.iod with
        | none =>
          rw [hs] at h
          simp at h
        | some fd =>
          rw [hs] at h
          simp [GE_NOTREADY] at h
      · simp only [h4] at h
        simp [GE_NOTREADY] at h
    · simp only [hg] at h
      simp [GE_NOTSUP, GE_NOTREADY] at h
  · simp [pty_control_laddr, hiod]

/-- Witness for claim C9 at a concrete closed PTY state and caller length
8. -/
theorem pty_raddr_bin_unguarded_witness :
    c4unset.iod = none ∧ (4 : Nat) ≤ 8 ∧
    (pty_control_raddr_bin true 8 c4unset = .derefNull ∧
     (∀ (s : PtyState) (g : Bool) (dl2 : Nat) (v : Option Nat),
       pty_control_raddr_bin g dl2 s ≠ .ret GE_NOTREADY v) ∧
     pty_control_laddr true 0 .ok c4unset = .ret GE_NOTREADY none) :=
  ⟨by decide, by decide,
   pty_raddr_bin_unguarded c4unset 8 .ok (by decide) (by decide)⟩
